import Mathlib

/-!
Verification development for the markup-convention checker, build pipeline and
navigation script of a static academic portfolio website.

The checker scans HTML page documents with regular expressions and extracts,
per structural unit (anchor, heading, image, resource reference), the attribute
values that the conventions constrain.  The embedding models a page document as
the list of its elements in document order; each element carries its tag name,
its attribute list (in the order the attributes appear in the tag text, so that
a first-match regex corresponds to `List.find?`), its trimmed-later inner text,
and the list of its descendant elements (used only by the publication-entry
check, which matches elements inside an `article` block).
-/

/-- A descendant element inside a matched block (name, attributes, inner text). -/
structure Elem where
  ename : String
  eattrs : List (String × String)
  etext : String
deriving DecidableEq

/-- An element of a page document: tag name, attributes in textual order,
inner text, and descendant elements in document order. -/
structure Tag where
  name : String
  attrs : List (String × String)
  text : String
  inner : List Elem
deriving DecidableEq

/-- A page document: its elements in document order. -/
abbrev Doc := List Tag

/-- First value of the named attribute, as a first-match regex would find it. -/
def getAttr (t : Tag) (a : String) : Option String :=
  (t.attrs.find? (fun p => p.1 == a)).map (fun p => p.2)

/-- First value of the named attribute of a descendant element. -/
def getAttrE (e : Elem) (a : String) : Option String :=
  (e.eattrs.find? (fun p => p.1 == a)).map (fun p => p.2)

/-- Substring containment, the model of an unanchored regex literal test. -/
def containsTok (s pat : String) : Bool :=
  decide (pat.data <:+: s.data)

/-- The `trim()` of the scripting runtime: strip leading and trailing
whitespace. -/
def strTrim (s : String) : String :=
  ⟨((s.data.dropWhile Char.isWhitespace).reverse.dropWhile Char.isWhitespace).reverse⟩

/-- The `toLowerCase()` of the scripting runtime. -/
def strToLower (s : String) : String :=
  ⟨s.data.map Char.toLower⟩

/- ### External link extraction and the link accessibility check
(`tests/accessibility.test.js`, `extractExternalLinks`, `linkHasAttribute`,
"Property 4: Link accessibility attributes") -/

/-- An href value is external when it starts with a web scheme
(`href.startsWith('http://') || href.startsWith('https://')`). -/
def isExternalHref (h : String) : Bool :=
  h.startsWith "http://" || h.startsWith "https://"

/-- An anchor tag with an href that starts with a web scheme. -/
def isExternalAnchor (t : Tag) : Bool :=
  t.name == "a" &&
    (match getAttr t "href" with
     | some h => isExternalHref h
     | none => false)

/-- `extractExternalLinks`: the anchor tags whose href is external. -/
def extractExternalLinks (doc : Doc) : List Tag :=
  doc.filter isExternalAnchor

/-- `linkHasAttribute(link.tag, 'target', '_blank')`: the tag text carries
the attribute with that exact value. -/
def linkTargetOk (t : Tag) : Bool :=
  t.attrs.any (fun p => p.1 == "target" && p.2 == "_blank")

/-- The rel requirement: a rel attribute is present and its (first) value
matches both `/noopener/` and `/noreferrer/`. -/
def linkRelOk (t : Tag) : Bool :=
  match getAttr t "rel" with
  | some v => containsTok v "noopener" && containsTok v "noreferrer"
  | none => false

/-- The combined link-accessibility check for one page document: every
extracted external link satisfies both the target and the rel expectation
(`expect(...).toBe(true)` for each link; any failing link fails the file). -/
def linkAccessibilityCheck (doc : Doc) : Bool :=
  (extractExternalLinks doc).all (fun t => linkTargetOk t && linkRelOk t)

/- ### Heading hierarchy check
(`tests/accessibility.test.js`, "sections have proper heading structure") -/

/-- The heading level of a tag name, as matched by the pattern for h1 to h6. -/
def headingLevel? (n : String) : Option Nat :=
  if n == "h1" then some 1
  else if n == "h2" then some 2
  else if n == "h3" then some 3
  else if n == "h4" then some 4
  else if n == "h5" then some 5
  else if n == "h6" then some 6
  else none

/-- The ordered sequence of heading levels of a page document. -/
def headingLevels (doc : Doc) : List Nat :=
  doc.filterMap (fun t => headingLevel? t.name)

/-- Walk consecutive pairs of heading levels: when the difference is
positive it must not exceed 1 (`if (diff > 0) expect(diff ≤ 1)`). -/
def adjacentPairsOk : List Nat → Bool
  | [] => true
  | [_] => true
  | a :: b :: rest =>
    (if ((b : Int) - (a : Int)) > 0 then
      decide (((b : Int) - (a : Int)) ≤ 1)
    else
      true) && adjacentPairsOk (b :: rest)

/-- The heading-structure check: at least one h1
(`headings.filter(h => h === 1).length ≥ 1`) and no pair of adjacent levels
increases by more than 1. -/
def headingStructureCheck (doc : Doc) : Bool :=
  decide (1 ≤ ((headingLevels doc).filter (fun h => h == 1)).length) &&
    adjacentPairsOk (headingLevels doc)

/- ### Navbar scroll behavior (`js/navigation.js`, `initNavbarScrollBehavior`) -/

/-- The observable state of the navbar script: the window's vertical scroll
offset and whether the navbar element currently carries the
`navbar-scrolled` class. -/
structure NavState where
  scrollY : Nat
  scrolled : Bool
deriving DecidableEq

/-- `updateNavbarOnScroll`: add the class when `window.scrollY > 50`,
remove it otherwise. -/
def updateNavbarOnScroll (s : NavState) : NavState :=
  if s.scrollY > 50 then { s with scrolled := true }
  else { s with scrolled := false }

/-- `initNavbarScrollBehavior` runs the update once at initialization. -/
def initNavbarScrollBehavior (s : NavState) : NavState :=
  updateNavbarOnScroll s

/-- A scroll event: the scroll offset changes, then the registered
listener runs the update. -/
def scrollEvent (s : NavState) (y : Nat) : NavState :=
  updateNavbarOnScroll { s with scrollY := y }

/-- Deliver a sequence of scroll events to the navbar state. -/
def runScrollEvents (s : NavState) (ys : List Nat) : NavState :=
  ys.foldl scrollEvent s

/- ### Build pipeline vendor tasks (gulpfile: `cleanVendor`, `vendor`,
`exports.vendor`, `exports.default`) -/

/-- The file-system state the vendor tasks touch: whether `vendor/jquery`
exists, the files currently under `vendor/bootstrap`, and the files under
`node_modules/bootstrap/dist` (paths relative to `dist`). -/
structure BuildFS where
  vendorJquery : Bool
  vendorBootstrap : List String
  nodeBootstrapDist : List String
deriving DecidableEq

/-- `cleanVendor`: remove `vendor/jquery` if it exists. -/
def cleanVendor (fs : BuildFS) : BuildFS :=
  if fs.vendorJquery then { fs with vendorJquery := false } else fs

/-- The glob exclusions of the copy step:
`!./node_modules/bootstrap/dist/css/bootstrap-grid*` and
`!./node_modules/bootstrap/dist/css/bootstrap-reboot*`. -/
def excludedDistFile (f : String) : Bool :=
  f.startsWith "css/bootstrap-grid" || f.startsWith "css/bootstrap-reboot"

/-- `vendor`: copy the Bootstrap dist tree, minus the excluded variants,
into `vendor/bootstrap`. -/
def vendorCopy (fs : BuildFS) : BuildFS :=
  { fs with vendorBootstrap := fs.nodeBootstrapDist.filter (fun f => !excludedDistFile f) }

/-- The intermediate states of running a list of tasks in series from an
initial state: the initial state, then the state after each task. -/
def runSeriesTrace (fs : BuildFS) : List (BuildFS → BuildFS) → List BuildFS
  | [] => [fs]
  | t :: ts => fs :: runSeriesTrace (t fs) ts

/-- The steps of `exports.vendor = gulp.series(cleanVendor, vendor)`. -/
def vendorTaskSteps : List (BuildFS → BuildFS) := [cleanVendor, vendorCopy]

/-- `exports.vendor`: run `cleanVendor`, then `vendor`. -/
def vendorTask (fs : BuildFS) : BuildFS :=
  vendorCopy (cleanVendor fs)

/-- `exports.default = exports.vendor`. -/
def defaultTask : BuildFS → BuildFS :=
  vendorTask

/- ### Color contrast computation
(`tests/accessibility.test.js`, "Property 11: Color contrast compliance":
`hexToRgb`, `getLuminance`, `getContrastRatio`) -/

/-- An RGB color as produced by `hexToRgb`: one 0..255 value per channel. -/
structure Rgb where
  r : Nat
  g : Nat
  b : Nat
deriving DecidableEq

/-- The value of one hex digit, matching `[a-f\d]` case-insensitively. -/
def hexDigitVal? (c : Char) : Option Nat :=
  if '0' ≤ c ∧ c ≤ '9' then some (c.toNat - '0'.toNat)
  else if 'a' ≤ c ∧ c ≤ 'f' then some (c.toNat - 'a'.toNat + 10)
  else if 'A' ≤ c ∧ c ≤ 'F' then some (c.toNat - 'A'.toNat + 10)
  else none

/-- `parseInt(result[i], 16)` on a two-hex-digit capture. -/
def hexPairVal? (hi lo : Char) : Option Nat :=
  match hexDigitVal? hi, hexDigitVal? lo with
  | some x, some y => some (16 * x + y)
  | _, _ => none

/-- Six hex digits to a color. -/
def hexChars? : List Char → Option Rgb
  | [c1, c2, c3, c4, c5, c6] =>
    match hexPairVal? c1 c2, hexPairVal? c3 c4, hexPairVal? c5 c6 with
    | some r, some g, some b => some ⟨r, g, b⟩
    | _, _, _ => none
  | _ => none

/-- `hexToRgb`: parse `^#?([a-f\d]{2})([a-f\d]{2})([a-f\d]{2})$`. -/
def hexToRgb (s : String) : Option Rgb :=
  match s.data with
  | '#' :: rest => hexChars? rest
  | cs => hexChars? cs

/-- The piecewise gamma transform applied to one normalized channel:
`c ≤ 0.03928 ? c / 12.92 : ((c + 0.055) / 1.055) ** 2.4`. -/
noncomputable def gammaExpand (c : ℝ) : ℝ :=
  if c ≤ 0.03928 then c / 12.92 else ((c + 0.055) / 1.055) ^ (2.4 : ℝ)

/-- `getLuminance`: divide each channel by 255, gamma-expand, and weight
0.2126 / 0.7152 / 0.0722. -/
noncomputable def getLuminance (r g b : Nat) : ℝ :=
  0.2126 * gammaExpand ((r : ℝ) / 255) + 0.7152 * gammaExpand ((g : ℝ) / 255) +
    0.0722 * gammaExpand ((b : ℝ) / 255)

/-- `getContrastRatio`: `(lighter + 0.05) / (darker + 0.05)` where lighter
and darker are the larger and smaller of the two luminances. -/
noncomputable def getContrastRatio (c1 c2 : Rgb) : ℝ :=
  (max (getLuminance c1.r c1.g c1.b) (getLuminance c2.r c2.g c2.b) + 0.05) /
    (min (getLuminance c1.r c1.g c1.b) (getLuminance c2.r c2.g c2.b) + 0.05)

/- ### External resource extraction and the resource-optimization checks
(`tests/performance.test.js`, `extractExternalResources`,
"Property 8: Resource optimization") -/

/-- A URL captured by `(https?:\/\/[^"']+)`: an absolute web-scheme URL with
at least one character after the scheme. -/
def isExternalResourceUrl (u : String) : Bool :=
  (u.startsWith "http://" && decide (7 < u.length)) ||
    (u.startsWith "https://" && decide (8 < u.length))

/-- A URL captured by `(\/\/[^"']+)`: a protocol-relative URL with at least
one character after the slashes. -/
def isProtocolRelativeUrl (u : String) : Bool :=
  u.startsWith "//" && decide (2 < u.length)

/-- One regex pass: the values of attribute `a` of tags named `n` that the
URL predicate captures, in document order. -/
def tagUrls (doc : Doc) (n a : String) (pred : String → Bool) : List String :=
  doc.filterMap (fun t =>
    if t.name == n then
      match getAttr t a with
      | some u => if pred u then some u else none
      | none => none
    else none)

/-- `extractExternalResources`: link hrefs, script srcs and img srcs with an
absolute web scheme, then protocol-relative img srcs normalized with an
`https:` prefix, concatenated in the order the four passes push them. -/
def extractExternalResources (doc : Doc) : List String :=
  tagUrls doc "link" "href" isExternalResourceUrl ++
    tagUrls doc "script" "src" isExternalResourceUrl ++
    tagUrls doc "img" "src" isExternalResourceUrl ++
    (tagUrls doc "img" "src" isProtocolRelativeUrl).map (fun u => "https:" ++ u)

/-- The unique-count check: `[...new Set(resources)].length ≤ 15`. -/
def resourceCountCheck (doc : Doc) : Bool :=
  decide ((extractExternalResources doc).dedup.length ≤ 15)

/-- The duplicate check: no URL occurs more than once in the extracted list
(the entries of the per-URL count table with count > 1 number zero). -/
def duplicateResourceCheck (doc : Doc) : Bool :=
  ((extractExternalResources doc).dedup.filter
      (fun u => decide (1 < (extractExternalResources doc).count u))).length == 0

/- ### Image alternative-text checks (`tests/accessibility.test.js`,
"Property 12: Image alt text presence") -/

/-- The img tags of a page document. -/
def imgTags (doc : Doc) : List Tag :=
  doc.filter (fun t => t.name == "img")

/-- "all images have non-empty alt text": every img tag must carry an alt
attribute (`fail` otherwise) whose trimmed length is greater than 0. -/
def nonEmptyAltCheck (doc : Doc) : Bool :=
  (imgTags doc).all (fun t =>
    match getAttr t "alt" with
    | some v => decide (0 < (strTrim v).length)
    | none => false)

/-- The generic placeholder words rejected by the descriptive-alt check. -/
def genericTerms : List String := ["image", "photo", "picture", "img"]

/-- "alt text is descriptive": for every img tag that carries an alt
attribute, the trimmed value has length at least 3 and is not
case-insensitively equal to a generic placeholder word; an img with no alt
attribute is skipped by this check. -/
def descriptiveAltCheck (doc : Doc) : Bool :=
  (imgTags doc).all (fun t =>
    match getAttr t "alt" with
    | some v =>
      decide (3 ≤ (strTrim v).length) &&
        !(genericTerms.any (fun g => strToLower (strTrim v) == g))
    | none => true)

/-- An image marked decorative: `role="presentation"` or
`aria-hidden="true"` in the tag text. -/
def isDecorative (t : Tag) : Bool :=
  t.attrs.any (fun p => p.1 == "role" && p.2 == "presentation") ||
    t.attrs.any (fun p => p.1 == "aria-hidden" && p.2 == "true")

/-- A decorative image with an empty alt attribute. -/
def decorativeEmptyAltImg : Tag :=
  ⟨"img", [("src", "decoration.png"), ("role", "presentation"), ("alt", "")], "", []⟩

/- ### File-level checks and the missing-file policy
(the `fs.existsSync` guards of `tests/accessibility.test.js` and
`tests/performance.test.js` return early; the guards of
`tests/publications.test.js` and `tests/styling.test.js` throw) -/

/-- The site the checker reads: page name to parsed page document, `none`
when the file does not exist on disk. -/
abbrev SiteFiles := String → Option Doc

/-- The outcome of one check on one file: the test passes, an assertion
fails, or the test throws an error. -/
inductive CheckOutcome where
  | pass
  | fail
  | err
deriving DecidableEq

/-- The link-accessibility check on a file: skip (pass) when the file does
not exist. -/
def linkAccessibilityCheckFile (site : SiteFiles) (name : String) : CheckOutcome :=
  match site name with
  | none => .pass
  | some doc => if linkAccessibilityCheck doc then .pass else .fail

/-- The heading-structure check on a file: skip when missing. -/
def headingStructureCheckFile (site : SiteFiles) (name : String) : CheckOutcome :=
  match site name with
  | none => .pass
  | some doc => if headingStructureCheck doc then .pass else .fail

/-- The non-empty-alt check on a file: skip when missing. -/
def nonEmptyAltCheckFile (site : SiteFiles) (name : String) : CheckOutcome :=
  match site name with
  | none => .pass
  | some doc => if nonEmptyAltCheck doc then .pass else .fail

/-- The descriptive-alt check on a file: skip when missing. -/
def descriptiveAltCheckFile (site : SiteFiles) (name : String) : CheckOutcome :=
  match site name with
  | none => .pass
  | some doc => if descriptiveAltCheck doc then .pass else .fail

/-- The resource-count check on a file: skip when missing. -/
def resourceCountCheckFile (site : SiteFiles) (name : String) : CheckOutcome :=
  match site name with
  | none => .pass
  | some doc => if resourceCountCheck doc then .pass else .fail

/-- The duplicate-resource check on a file: skip when missing. -/
def duplicateResourceCheckFile (site : SiteFiles) (name : String) : CheckOutcome :=
  match site name with
  | none => .pass
  | some doc => if duplicateResourceCheck doc then .pass else .fail

/-- A tag whose class attribute value contains the given class name,
as a `class="[^"]*name[^"]*"` pattern matches it. -/
def hasClassContaining (t : Tag) (c : String) : Bool :=
  match getAttr t "class" with
  | some v => containsTok v c
  | none => false

/-- A descendant element whose class attribute value contains the class name. -/
def hasClassContainingE (e : Elem) (c : String) : Bool :=
  match getAttrE e "class" with
  | some v => containsTok v c
  | none => false

/-- `extractPublicationEntries`: the article blocks whose class contains
`publication-entry`. -/
def extractPublicationEntries (doc : Doc) : List Tag :=
  doc.filter (fun t => t.name == "article" && hasClassContaining t "publication-entry")

/-- `htmlContains(entry, 'class="..."')`: some element inside the entry
declares exactly that class attribute value. -/
def entryDeclaresClass (t : Tag) (c : String) : Bool :=
  t.inner.any (fun e => getAttrE e "class" == some c)

/-- `extractTextContent`: the trimmed inner text of the first element inside
the entry whose class contains the class name. -/
def extractTextContent (t : Tag) (c : String) : Option String :=
  (t.inner.find? (fun e => hasClassContainingE e c)).map (fun e => strTrim e.etext)

/-- A word character for the boundary assertions of the year pattern. -/
def isWordChar (c : Char) : Bool :=
  c.isAlphanum || c == '_'

/-- Scan for a match of the year pattern at some position; the
previous character (for the leading word boundary) is threaded along. -/
def yearAt (prev : Option Char) : List Char → Bool
  | c1 :: c2 :: c3 :: c4 :: rest =>
    ((match prev with
      | none => true
      | some p => !isWordChar p) &&
      ((c1 == '1' && c2 == '9') || (c1 == '2' && c2 == '0')) &&
      c3.isDigit && c4.isDigit &&
      (match rest with
       | [] => true
       | c :: _ => !isWordChar c)) ||
      yearAt (some c1) (c2 :: c3 :: c4 :: rest)
  | _ => false

/-- The venue must contain a year: the pattern for a word-bounded 19xx or
20xx number matches somewhere. -/
def hasYear (s : String) : Bool :=
  yearAt none s.data

/-- One publication entry has the authors, title and venue classes declared,
each with non-empty extracted text, and the venue text contains a year. -/
def pubEntryOk (t : Tag) : Bool :=
  entryDeclaresClass t "publication-authors" &&
    entryDeclaresClass t "publication-title" &&
    entryDeclaresClass t "publication-venue" &&
    (match extractTextContent t "publication-authors" with
     | some v => decide (0 < v.length)
     | none => false) &&
    (match extractTextContent t "publication-title" with
     | some v => decide (0 < v.length)
     | none => false) &&
    (match extractTextContent t "publication-venue" with
     | some v => decide (0 < v.length) && hasYear v
     | none => false)

/-- "all publication entries have required fields": at least one entry, and
every entry is complete. -/
def publicationFieldsCheck (doc : Doc) : Bool :=
  decide (0 < (extractPublicationEntries doc).length) &&
    (extractPublicationEntries doc).all pubEntryOk

/-- The publications required-fields check on the site: it throws
(`throw new Error('publications.html not found')`) when `publications.html`
does not exist. -/
def publicationFieldsCheckFile (site : SiteFiles) : CheckOutcome :=
  match site "publications.html" with
  | none => .err
  | some doc => if publicationFieldsCheck doc then .pass else .fail

/-- `extractClasses`: the class attribute value split into whitespace-
separated non-empty class names. -/
def classTokens (t : Tag) : List String :=
  match getAttr t "class" with
  | some v => (v.splitOn " ").filter (fun c => 0 < c.length)
  | none => []

/-- "publication entries have consistent CSS classes": the elements whose
class contains `publication-entry` are non-empty, and each declares the
`publication-entry` class name and uses the article tag. -/
def stylingPubEntriesCheck (doc : Doc) : Bool :=
  decide (0 < (doc.filter (fun t => hasClassContaining t "publication-entry")).length) &&
    (doc.filter (fun t => hasClassContaining t "publication-entry")).all
      (fun t => (classTokens t).contains "publication-entry" && t.name == "article")

/-- The styling consistency check on the site: it throws
(`throw new Error('publications.html not found')`) when `publications.html`
does not exist. -/
def stylingPubEntriesCheckFile (site : SiteFiles) : CheckOutcome :=
  match site "publications.html" with
  | none => .err
  | some doc => if stylingPubEntriesCheck doc then .pass else .fail

/-- "publication entries use semantic HTML article elements"
(`tests/publications.test.js`): the page has article elements, an element
with class `publication-entry`, section elements, an element with class
`publication-section`, and a main element. -/
def semanticStructureCheck (doc : Doc) : Bool :=
  doc.any (fun t => t.name == "article") &&
    doc.any (fun t => getAttr t "class" == some "publication-entry") &&
    doc.any (fun t => t.name == "section") &&
    doc.any (fun t => getAttr t "class" == some "publication-section") &&
    doc.any (fun t => t.name == "main")

/-- The semantic-structure check on the site: it reads `publications.html`
with no `existsSync` guard, so a missing file raises a file-system error. -/
def semanticStructureCheckFile (site : SiteFiles) : CheckOutcome :=
  match site "publications.html" with
  | none => .err
  | some doc => if semanticStructureCheck doc then .pass else .fail

/-- The site with no files on disk. -/
def emptySite : SiteFiles := fun _ => none

/- ### Stylesheet-variable checks of the styling suite
(`tests/styling.test.js`, `extractCSSVariables`, `extractSpacingValues`,
and the checks that throw when `variables.css` or `components.css` is
missing) -/

/-- The custom-property declarations `--name: value;` of a stylesheet, in
the order the extraction regex finds them. -/
abbrev CssVarSheet := List (String × String)

/-- The key set of the object `extractCSSVariables` builds (one entry per
declared name). -/
def cssVarNames (sheet : CssVarSheet) : List String :=
  (sheet.map Prod.fst).dedup

/-- The object's value for one key: the last declaration wins, its value
trimmed at insertion. -/
def cssVarValue? (sheet : CssVarSheet) (k : String) : Option String :=
  (sheet.reverse.find? (fun p => p.1 == k)).map (fun p => strTrim p.2)

/-- `value.match(/^([\d.]+)/)`: the leading digits-and-dots run, when the
value starts with one. -/
def leadingNumberTok? (v : String) : Option String :=
  match v.data with
  | [] => none
  | c :: _ =>
    if c.isDigit || c == '.' then
      some ⟨v.data.takeWhile (fun d => d.isDigit || d == '.')⟩
    else none

/-- "CSS custom properties are used for spacing consistency": some
`spacing-` variables exist and more than 3 of them have numeric-leading
values. -/
def spacingConsistencyCheck (sheet : CssVarSheet) : Bool :=
  decide (0 < ((cssVarNames sheet).filter (fun k => k.startsWith "spacing-")).length) &&
    decide (3 < (((cssVarNames sheet).filter (fun k => k.startsWith "spacing-")).filterMap
      (fun k => (cssVarValue? sheet k).bind leadingNumberTok?)).length)

/-- "color scheme is consistent using CSS custom properties": some `color-`
variables exist and the five named color properties are declared. -/
def colorSchemeCheck (sheet : CssVarSheet) : Bool :=
  decide (0 < ((cssVarNames sheet).filter (fun k => k.startsWith "color-")).length) &&
    (cssVarNames sheet).contains "color-primary" &&
    (cssVarNames sheet).contains "color-secondary" &&
    (cssVarNames sheet).contains "color-accent" &&
    (cssVarNames sheet).contains "color-text" &&
    (cssVarNames sheet).contains "color-background"

/-- "typography scale is consistent across pages": some `font-size-`
variables exist and the heading and base sizes are declared. -/
def typographyCheck (sheet : CssVarSheet) : Bool :=
  decide (0 < ((cssVarNames sheet).filter (fun k => k.startsWith "font-size-")).length) &&
    (cssVarNames sheet).contains "font-size-h1" &&
    (cssVarNames sheet).contains "font-size-h2" &&
    (cssVarNames sheet).contains "font-size-h3" &&
    (cssVarNames sheet).contains "font-size-base"

/-- A rule block of a stylesheet: its selector text and its declarations in
order. -/
structure CssRule where
  selector : String
  decls : List (String × String)
deriving DecidableEq

/-- The spacing properties `extractSpacingValues` looks for. -/
def spacingProps : List String :=
  ["margin", "padding", "gap", "margin-bottom", "margin-top",
   "padding-bottom", "padding-top"]

/-- The first declaration of a property inside one rule block, trimmed. -/
def ruleFirstDecl? (r : CssRule) (prop : String) : Option String :=
  (r.decls.find? (fun d => d.1 == prop)).map (fun d => strTrim d.2)

/-- `extractSpacingValues`: over the blocks whose selector contains the
class, collect per spacing property the value of the last block that
declares it (later blocks overwrite the object entry). -/
def extractSpacingValues (rules : List CssRule) (c : String) : List String :=
  spacingProps.filterMap (fun prop =>
    (((rules.filter (fun r => containsTok r.selector ("." ++ c))).filter
        (fun r => (ruleFirstDecl? r prop).isSome)).getLast?).bind
      (fun r => ruleFirstDecl? r prop))

/-- "similar elements use consistent spacing from design system": every
extracted `publication-entry` spacing value that contains neither `0` nor
`auto` uses a custom-property reference. -/
def designSpacingCheck (rules : List CssRule) : Bool :=
  (extractSpacingValues rules "publication-entry").all (fun v =>
    if !containsTok v "0" && !containsTok v "auto" then
      containsTok v "var(--spacing-" || containsTok v "var(--"
    else true)

/-- The stylesheets the styling suite reads as variable tables, `none` when
missing on disk. -/
abbrev CssVarFiles := String → Option CssVarSheet

/-- The stylesheets the styling suite reads as rule blocks, `none` when
missing on disk. -/
abbrev CssRuleFiles := String → Option (List CssRule)

/-- The spacing-consistency check on the site: it throws
(`throw new Error('variables.css not found')`) when `variables.css` does
not exist. -/
def spacingConsistencyCheckFile (css : CssVarFiles) : CheckOutcome :=
  match css "css/variables.css" with
  | none => .err
  | some sheet => if spacingConsistencyCheck sheet then .pass else .fail

/-- The color-scheme check on the site: it throws when `variables.css` does
not exist. -/
def colorSchemeCheckFile (css : CssVarFiles) : CheckOutcome :=
  match css "css/variables.css" with
  | none => .err
  | some sheet => if colorSchemeCheck sheet then .pass else .fail

/-- The typography-scale check on the site: it throws when `variables.css`
does not exist. -/
def typographyCheckFile (css : CssVarFiles) : CheckOutcome :=
  match css "css/variables.css" with
  | none => .err
  | some sheet => if typographyCheck sheet then .pass else .fail

/-- The design-system-spacing check on the site: it throws
(`throw new Error('components.css not found')`) when `components.css` does
not exist. -/
def designSpacingCheckFile (css : CssRuleFiles) : CheckOutcome :=
  match css "css/components.css" with
  | none => .err
  | some rules => if designSpacingCheck rules then .pass else .fail

/-- The stylesheet store with no variable files on disk. -/
def emptyCssVarFiles : CssVarFiles := fun _ => none

/-- The stylesheet store with no rule files on disk. -/
def emptyCssRuleFiles : CssRuleFiles := fun _ => none

/- ### CSS minification task (gulpfile: `minifyCSS`, the `css` task) -/

/-- A token of a stylesheet text: a whitespace run, a comment (its inner
text, the four delimiter characters accounted for in its size), one of the
brace and parenthesis characters, or any other token. -/
inductive CssTok where
  | ws (s : String)
  | comment (s : String)
  | lbrace
  | rbrace
  | lparen
  | rparen
  | sym (s : String)
deriving DecidableEq

/-- A token that carries selector or declaration content: everything except
whitespace and comments. -/
def isSemanticTok : CssTok → Bool
  | .ws _ => false
  | .comment _ => false
  | _ => true

/-- Modelled from the spec: the minifier the `css` task pipes stylesheets
through (`cleanCSS()` of gulp-clean-css) is third-party code absent from
this repository; the spec describes it as a pure, deterministic text
transform (whitespace and comment removal) that preserves selector and
declaration semantics exactly.  On the token sequence of a stylesheet it
drops whitespace and comment tokens and keeps every other token unchanged. -/
def minifyCSS (ts : List CssTok) : List CssTok :=
  ts.filter isSemanticTok

/-- The byte size of one token. -/
def tokSize : CssTok → Nat
  | .ws s => s.length
  | .comment s => s.length + 4
  | .lbrace => 1
  | .rbrace => 1
  | .lparen => 1
  | .rparen => 1
  | .sym s => s.length

/-- The byte size of a stylesheet text. -/
def cssTextSize (ts : List CssTok) : Nat :=
  (ts.map tokSize).sum

/-- The selector and declaration content of a stylesheet text: its semantic
tokens in order. -/
def cssSemantics (ts : List CssTok) : List CssTok :=
  ts.filter isSemanticTok

/-- Occurrences of one token in a stylesheet text. -/
def countTok (ts : List CssTok) (x : CssTok) : Nat :=
  (ts.filter (fun t => t == x)).length

/-- The glob of the `css` task: `['./css/*.css', '!./css/*.min.css']`. -/
def strEndsWith (s suffix : String) : Bool :=
  decide (suffix.data <:+ s.data)

/-- Whether the `css` task selects a stylesheet as input. -/
def cssSrcSelects (name : String) : Bool :=
  strEndsWith name ".css" && !(strEndsWith name ".min.css")

/-- `rename({ suffix: '.min' })` on a selected `.css` input: the sibling
output name with the `.min` suffix before the extension. -/
def renameWithMinSuffix (name : String) : String :=
  (name.dropRight 4) ++ ".min.css"

/-- A concrete stylesheet text: `.a { color: #fff; }` with a comment. -/
def cssWitnessSheet : List CssTok :=
  [.comment " base ", .ws "\n", .sym ".a", .ws " ", .lbrace, .ws " ",
   .sym "color", .sym ":", .ws " ", .sym "#fff", .sym ";", .ws " ", .rbrace, .ws "\n"]

/-- A concrete page document with headings h1, h2, h2, h1, h2, h3. -/
def headingWitnessDoc : Doc :=
  [⟨"h1", [], "", []⟩, ⟨"h2", [], "", []⟩, ⟨"p", [], "", []⟩,
   ⟨"h2", [], "", []⟩, ⟨"h1", [], "", []⟩, ⟨"h2", [], "", []⟩,
   ⟨"h3", [], "", []⟩]

/- ## Theorems -/

lemma adjacentPairsOk_iff_chain : ∀ l : List Nat,
    adjacentPairsOk l = true ↔ l.Chain' (fun a b => b ≤ a + 1)
  | [] => by simp [adjacentPairsOk]
  | [a] => by simp [adjacentPairsOk]
  | a :: b :: rest => by
    have ih := adjacentPairsOk_iff_chain (b :: rest)
    rw [List.chain'_cons]
    simp only [adjacentPairsOk, Bool.and_eq_true, ih]
    by_cases h : ((b : Int) - (a : Int)) > 0
    · simp only [if_pos h, decide_eq_true_eq]
      exact and_congr_left' (by omega)
    · simp only [if_neg h]
      constructor
      · intro h2
        exact ⟨by omega, h2.2⟩
      · intro h2
        exact ⟨trivial, h2.2⟩

/-- C1: for every anchor tag of a page document whose href starts with
`http://` or `https://`, the link-accessibility check passes exactly when the
tag carries `target="_blank"` and a rel value matching both `noopener` and
`noreferrer`; an external anchor missing either attribute fails the check. -/
theorem linkAccessibility_characterization (doc : Doc) :
    linkAccessibilityCheck doc = true ↔
      ∀ t ∈ doc, isExternalAnchor t = true →
        linkTargetOk t = true ∧ linkRelOk t = true := by
  simp only [linkAccessibilityCheck, extractExternalLinks, List.all_eq_true,
    List.mem_filter, Bool.and_eq_true, and_imp]

/-- Witness for C1: the check evaluates on a concrete page document. -/
theorem linkAccessibility_characterization_witness :
    linkAccessibilityCheck [] = true :=
  (linkAccessibility_characterization []).mpr (by intro t ht; simp at ht)

/-- C2: the heading-hierarchy check passes exactly when the ordered sequence
of heading levels contains at least one level-1 heading and every adjacent
pair increases by at most 1 (any decrease is allowed). -/
theorem headingStructure_characterization (doc : Doc) :
    headingStructureCheck doc = true ↔
      1 ≤ ((headingLevels doc).filter (fun h => h == 1)).length ∧
        (headingLevels doc).Chain' (fun a b => b ≤ a + 1) := by
  simp [headingStructureCheck, adjacentPairsOk_iff_chain]

/-- Witness for C2: the check evaluates on a concrete page document. -/
theorem headingStructure_characterization_witness :
    headingStructureCheck headingWitnessDoc = true :=
  (headingStructure_characterization headingWitnessDoc).mpr (by
    refine ⟨by decide, ?_⟩
    have h : headingLevels headingWitnessDoc = [1, 2, 2, 1, 2, 3] := rfl
    rw [h]
    simp [List.chain'_cons])

lemma updateNavbar_establishes (s : NavState) :
    (updateNavbarOnScroll s).scrolled = decide (50 < (updateNavbarOnScroll s).scrollY) := by
  by_cases h : s.scrollY > 50 <;> simp [updateNavbarOnScroll, h]

lemma navInvariant_run : ∀ (ys : List Nat) (s : NavState),
    s.scrolled = decide (50 < s.scrollY) →
    (runScrollEvents s ys).scrolled = decide (50 < (runScrollEvents s ys).scrollY)
  | [], _, h => h
  | y :: ys, s, _ => by
    have hstep : runScrollEvents s (y :: ys) = runScrollEvents (scrollEvent s y) ys := rfl
    rw [hstep]
    exact navInvariant_run ys (scrollEvent s y) (updateNavbar_establishes _)

/-- C9: after initialization and after every sequence of scroll events, the
navbar carries the `navbar-scrolled` class exactly when the vertical scroll
offset is strictly greater than 50. -/
theorem navbarScrolled_invariant (s0 : NavState) (ys : List Nat) :
    (initNavbarScrollBehavior s0).scrolled
        = decide (50 < (initNavbarScrollBehavior s0).scrollY) ∧
      (runScrollEvents (initNavbarScrollBehavior s0) ys).scrolled
        = decide (50 < (runScrollEvents (initNavbarScrollBehavior s0) ys).scrollY) :=
  ⟨updateNavbar_establishes s0,
    navInvariant_run ys (initNavbarScrollBehavior s0) (updateNavbar_establishes s0)⟩

/-- Witness for C9: the invariant evaluated at a concrete initial state and
scroll trace (offsets 100 then 10: the class is added then removed). -/
theorem navbarScrolled_invariant_witness :
    (initNavbarScrollBehavior ⟨0, false⟩).scrolled
        = decide (50 < (initNavbarScrollBehavior ⟨0, false⟩).scrollY) ∧
      (runScrollEvents (initNavbarScrollBehavior ⟨0, false⟩) [100, 10]).scrolled
        = decide (50 < (runScrollEvents (initNavbarScrollBehavior ⟨0, false⟩) [100, 10]).scrollY) :=
  navbarScrolled_invariant ⟨0, false⟩ [100, 10]

/-- C7: the vendor task runs the cleanup step strictly before the copy step
(the trace of `gulp.series(cleanVendor, vendor)` is clean-then-copy), the
state in which the copy step starts already has `vendor/jquery` removed, the
final state has the Bootstrap dist files (minus the `bootstrap-grid*` and
`bootstrap-reboot*` variants) copied and no jQuery directory, and the default
task is exactly the vendor task. -/
theorem vendorTask_sequencing (fs : BuildFS) :
    runSeriesTrace fs vendorTaskSteps = [fs, cleanVendor fs, vendorTask fs] ∧
      (cleanVendor fs).vendorJquery = false ∧
      (vendorTask fs).vendorJquery = false ∧
      (vendorTask fs).vendorBootstrap
        = fs.nodeBootstrapDist.filter (fun f => !excludedDistFile f) ∧
      defaultTask = vendorTask := by
  have hclean : (cleanVendor fs).vendorJquery = false := by
    by_cases h : fs.vendorJquery <;> simp [cleanVendor, h]
  refine ⟨?_, hclean, ?_, ?_, rfl⟩
  · simp [runSeriesTrace, vendorTaskSteps, vendorTask]
  · simp [vendorTask, vendorCopy, hclean]
  · simp [vendorTask, vendorCopy, cleanVendor]
    by_cases h : fs.vendorJquery <;> simp [h]

/-- Witness for C7: the sequencing facts at a concrete file system holding a
stale jQuery directory and the Bootstrap dist tree. -/
theorem vendorTask_sequencing_witness :
    runSeriesTrace ⟨true, [], ["css/bootstrap.css", "css/bootstrap-grid.css", "js/bootstrap.js"]⟩ vendorTaskSteps
        = [⟨true, [], ["css/bootstrap.css", "css/bootstrap-grid.css", "js/bootstrap.js"]⟩,
           cleanVendor ⟨true, [], ["css/bootstrap.css", "css/bootstrap-grid.css", "js/bootstrap.js"]⟩,
           vendorTask ⟨true, [], ["css/bootstrap.css", "css/bootstrap-grid.css", "js/bootstrap.js"]⟩] ∧
      (cleanVendor ⟨true, [], ["css/bootstrap.css", "css/bootstrap-grid.css", "js/bootstrap.js"]⟩).vendorJquery = false ∧
      (vendorTask ⟨true, [], ["css/bootstrap.css", "css/bootstrap-grid.css", "js/bootstrap.js"]⟩).vendorJquery = false ∧
      (vendorTask ⟨true, [], ["css/bootstrap.css", "css/bootstrap-grid.css", "js/bootstrap.js"]⟩).vendorBootstrap
        = List.filter (fun f => !excludedDistFile f) ["css/bootstrap.css", "css/bootstrap-grid.css", "js/bootstrap.js"] ∧
      defaultTask = vendorTask :=
  vendorTask_sequencing ⟨true, [], ["css/bootstrap.css", "css/bootstrap-grid.css", "js/bootstrap.js"]⟩

lemma gammaExpand_nonneg (c : ℝ) (hc : 0 ≤ c) : 0 ≤ gammaExpand c := by
  unfold gammaExpand
  split
  · exact div_nonneg hc (by norm_num)
  · exact Real.rpow_nonneg (div_nonneg (by linarith) (by norm_num)) _

lemma getLuminance_nonneg (r g b : Nat) : 0 ≤ getLuminance r g b := by
  unfold getLuminance
  have h1 := gammaExpand_nonneg ((r : ℝ) / 255) (by positivity)
  have h2 := gammaExpand_nonneg ((g : ℝ) / 255) (by positivity)
  have h3 := gammaExpand_nonneg ((b : ℝ) / 255) (by positivity)
  nlinarith

/-- C10: the contrast-ratio function is symmetric in its two color arguments
and its result is always at least 1. -/
theorem contrastRatio_symm_ge_one (c1 c2 : Rgb) :
    getContrastRatio c1 c2 = getContrastRatio c2 c1 ∧
      1 ≤ getContrastRatio c1 c2 := by
  unfold getContrastRatio
  constructor
  · rw [max_comm, min_comm]
  · have h1 := getLuminance_nonneg c1.r c1.g c1.b
    have h2 := getLuminance_nonneg c2.r c2.g c2.b
    have hd : (0 : ℝ) < min (getLuminance c1.r c1.g c1.b) (getLuminance c2.r c2.g c2.b) + 0.05 := by
      have := le_min h1 h2
      linarith
    rw [one_le_div hd]
    have := min_le_max (a := getLuminance c1.r c1.g c1.b) (b := getLuminance c2.r c2.g c2.b)
    linarith

lemma lum_white : getLuminance 255 255 255 = 1 := by
  unfold getLuminance gammaExpand
  have h255 : ((255 : Nat) : ℝ) / 255 = 1 := by norm_num
  rw [h255, if_neg (by norm_num : ¬((1 : ℝ) ≤ 0.03928))]
  have hbase : ((1 : ℝ) + 0.055) / 1.055 = 1 := by norm_num
  rw [hbase, Real.one_rpow]
  norm_num

lemma lum_text : getLuminance 26 26 26 = ((1601 : ℝ) / 10761) ^ (2.4 : ℝ) := by
  unfold getLuminance gammaExpand
  rw [if_neg (by norm_num : ¬(((26 : Nat) : ℝ) / 255 ≤ 0.03928))]
  have hbase : (((26 : Nat) : ℝ) / 255 + 0.055) / 1.055 = (1601 : ℝ) / 10761 := by
    norm_num
  rw [hbase]
  ring

/-- C5: parsing the declared text and background colors `#1a1a1a` and
`#ffffff` yields channels (26,26,26) and (255,255,255); the luminance-based
contrast ratio of that pair is at least 4.5; and recomputing the ratio on the
same pair yields the identical value. -/
theorem textBackground_contrast_compliance :
    hexToRgb "#1a1a1a" = some ⟨26, 26, 26⟩ ∧
      hexToRgb "#ffffff" = some ⟨255, 255, 255⟩ ∧
      4.5 ≤ getContrastRatio ⟨26, 26, 26⟩ ⟨255, 255, 255⟩ ∧
      getContrastRatio ⟨26, 26, 26⟩ ⟨255, 255, 255⟩
        = getContrastRatio ⟨26, 26, 26⟩ ⟨255, 255, 255⟩ := by
  refine ⟨by decide, by decide, ?_, rfl⟩
  have hb0 : (0 : ℝ) < (1601 : ℝ) / 10761 := by norm_num
  have hb1 : (1601 : ℝ) / 10761 ≤ 1 := by norm_num
  have hg0 : 0 ≤ ((1601 : ℝ) / 10761) ^ (2.4 : ℝ) := Real.rpow_nonneg (le_of_lt hb0) _
  have hg1 : ((1601 : ℝ) / 10761) ^ (2.4 : ℝ) ≤ 1 :=
    Real.rpow_le_one (le_of_lt hb0) hb1 (by norm_num)
  have hle2 : ((1601 : ℝ) / 10761) ^ (2.4 : ℝ) ≤ ((1601 : ℝ) / 10761) ^ (2 : ℝ) :=
    Real.rpow_le_rpow_of_exponent_ge hb0 hb1 (by norm_num)
  have h2 : ((1601 : ℝ) / 10761) ^ (2 : ℝ) = ((1601 : ℝ) / 10761) * ((1601 : ℝ) / 10761) := by
    rw [show (2 : ℝ) = ((2 : Nat) : ℝ) by norm_num, Real.rpow_natCast]
    ring
  have hsmall : ((1601 : ℝ) / 10761) ^ (2.4 : ℝ) ≤ 11 / 60 := by
    rw [h2] at hle2
    nlinarith
  unfold getContrastRatio
  have hrw : (⟨26, 26, 26⟩ : Rgb).r = 26 := rfl
  simp only [lum_text, lum_white]
  rw [max_eq_right hg1, min_eq_left hg1]
  rw [le_div_iff₀ (by linarith)]
  linarith

lemma duplicateResourceCheck_iff (doc : Doc) :
    duplicateResourceCheck doc = true ↔
      ∀ u, (extractExternalResources doc).count u ≤ 1 := by
  unfold duplicateResourceCheck
  simp only [beq_iff_eq, List.length_eq_zero, List.filter_eq_nil_iff, decide_eq_true_eq]
  constructor
  · intro h u
    by_cases hu : u ∈ extractExternalResources doc
    · have := h u (List.mem_dedup.mpr hu)
      omega
    · simp [List.count_eq_zero_of_not_mem hu]
  · intro h u _
    exact Nat.not_lt.mpr (h u)

/-- C6: the resource-optimization checks pass for a page document exactly
when the set of extracted externally hosted resource URLs has at most 15
distinct members after deduplication and no URL occurs more than once in the
extracted list. -/
theorem resourceChecks_characterization (doc : Doc) :
    (resourceCountCheck doc && duplicateResourceCheck doc) = true ↔
      ((extractExternalResources doc).dedup.length ≤ 15 ∧
        ∀ u, (extractExternalResources doc).count u ≤ 1) := by
  rw [Bool.and_eq_true, duplicateResourceCheck_iff]
  unfold resourceCountCheck
  simp

/-- Witness for C6: the checks evaluate on a concrete page document. -/
theorem resourceChecks_characterization_witness :
    (resourceCountCheck [] && duplicateResourceCheck []) = true :=
  (resourceChecks_characterization []).mpr
    ⟨by decide, fun u => by simp [extractExternalResources, tagUrls]⟩

/-- C4: the claimed decorative exemption does not hold in the code: an img
tag marked decorative (`role="presentation"`) with an empty alt attribute
fails both the non-empty-alt check (which requires trimmed alt length > 0
for every img with an alt attribute) and the descriptive-alt check (which
requires trimmed length at least 3), even though the suite's own
"decorative images can have empty alt" test documents the exemption. -/
theorem decorative_empty_alt_fails_checks :
    isDecorative decorativeEmptyAltImg = true ∧
      nonEmptyAltCheck [decorativeEmptyAltImg] = false ∧
      descriptiveAltCheck [decorativeEmptyAltImg] = false :=
  ⟨by decide, by decide, by decide⟩

/-- C3 counterexample: on a site with no files on disk, the publications
required-fields check and the styling consistency check report an error
(throw) instead of passing vacuously. -/
theorem publicationsChecks_missing_file_throw :
    publicationFieldsCheckFile emptySite = CheckOutcome.err ∧
      stylingPubEntriesCheckFile emptySite = CheckOutcome.err ∧
      publicationFieldsCheckFile emptySite ≠ CheckOutcome.pass :=
  ⟨rfl, rfl, by decide⟩

/-- C3 amended: missing-file handling is not uniform across the convention
checks.  The `existsSync`-guarded checks (link accessibility, heading
structure, image alt, resources) skip a missing file, passing vacuously and
never erroring; but the publications required-fields check, the publications
semantic-structure check (an unguarded read) and the styling
publication-class check error when `publications.html` is missing, the
styling spacing-consistency, color-scheme and typography-scale checks error
when `variables.css` is missing, and the styling design-system-spacing
check errors when `components.css` is missing. -/
theorem missingFile_behavior (site : SiteFiles) (cssVars : CssVarFiles)
    (cssRules : CssRuleFiles) (name : String) (h : site name = none)
    (hv : cssVars "css/variables.css" = none)
    (hc : cssRules "css/components.css" = none) :
    linkAccessibilityCheckFile site name = CheckOutcome.pass ∧
      headingStructureCheckFile site name = CheckOutcome.pass ∧
      nonEmptyAltCheckFile site name = CheckOutcome.pass ∧
      descriptiveAltCheckFile site name = CheckOutcome.pass ∧
      resourceCountCheckFile site name = CheckOutcome.pass ∧
      duplicateResourceCheckFile site name = CheckOutcome.pass ∧
      (name = "publications.html" →
        publicationFieldsCheckFile site = CheckOutcome.err ∧
          stylingPubEntriesCheckFile site = CheckOutcome.err ∧
          semanticStructureCheckFile site = CheckOutcome.err) ∧
      spacingConsistencyCheckFile cssVars = CheckOutcome.err ∧
      colorSchemeCheckFile cssVars = CheckOutcome.err ∧
      typographyCheckFile cssVars = CheckOutcome.err ∧
      designSpacingCheckFile cssRules = CheckOutcome.err := by
  refine ⟨?_, ?_, ?_, ?_, ?_, ?_, ?_, ?_, ?_, ?_, ?_⟩
  · simp [linkAccessibilityCheckFile, h]
  · simp [headingStructureCheckFile, h]
  · simp [nonEmptyAltCheckFile, h]
  · simp [descriptiveAltCheckFile, h]
  · simp [resourceCountCheckFile, h]
  · simp [duplicateResourceCheckFile, h]
  · intro hn
    subst hn
    exact ⟨by simp [publicationFieldsCheckFile, h],
      by simp [stylingPubEntriesCheckFile, h],
      by simp [semanticStructureCheckFile, h]⟩
  · simp [spacingConsistencyCheckFile, hv]
  · simp [colorSchemeCheckFile, hv]
  · simp [typographyCheckFile, hv]
  · simp [designSpacingCheckFile, hc]

/-- Witness for the amended C3: the behavior at the empty site and
stylesheet stores and the publications page name. -/
theorem missingFile_behavior_witness :
    linkAccessibilityCheckFile emptySite "publications.html" = CheckOutcome.pass ∧
      headingStructureCheckFile emptySite "publications.html" = CheckOutcome.pass ∧
      nonEmptyAltCheckFile emptySite "publications.html" = CheckOutcome.pass ∧
      descriptiveAltCheckFile emptySite "publications.html" = CheckOutcome.pass ∧
      resourceCountCheckFile emptySite "publications.html" = CheckOutcome.pass ∧
      duplicateResourceCheckFile emptySite "publications.html" = CheckOutcome.pass ∧
      ("publications.html" = "publications.html" →
        publicationFieldsCheckFile emptySite = CheckOutcome.err ∧
          stylingPubEntriesCheckFile emptySite = CheckOutcome.err ∧
          semanticStructureCheckFile emptySite = CheckOutcome.err) ∧
      spacingConsistencyCheckFile emptyCssVarFiles = CheckOutcome.err ∧
      colorSchemeCheckFile emptyCssVarFiles = CheckOutcome.err ∧
      typographyCheckFile emptyCssVarFiles = CheckOutcome.err ∧
      designSpacingCheckFile emptyCssRuleFiles = CheckOutcome.err :=
  missingFile_behavior emptySite emptyCssVarFiles emptyCssRuleFiles
    "publications.html" rfl rfl rfl

lemma cssTextSize_minify_le (ts : List CssTok) :
    cssTextSize (minifyCSS ts) ≤ cssTextSize ts := by
  induction ts with
  | nil => simp [minifyCSS, cssTextSize]
  | cons t ts ih =>
    by_cases h : isSemanticTok t = true
    · simp only [minifyCSS, cssTextSize, List.filter_cons, h, if_true, List.map_cons,
        List.sum_cons] at ih ⊢
      omega
    · rw [Bool.not_eq_true] at h
      simp only [minifyCSS, cssTextSize, List.filter_cons, h, Bool.false_eq_true, if_false,
        List.map_cons, List.sum_cons] at ih ⊢
      omega

lemma countTok_minify (ts : List CssTok) (x : CssTok) (hx : isSemanticTok x = true) :
    countTok (minifyCSS ts) x = countTok ts x := by
  induction ts with
  | nil => rfl
  | cons t ts ih =>
    by_cases ht : isSemanticTok t = true
    · by_cases he : (t == x) = true
      · simp only [minifyCSS, countTok, List.filter_cons, ht, he, if_true,
          List.length_cons] at ih ⊢
        omega
      · rw [Bool.not_eq_true] at he
        simp only [minifyCSS, countTok, List.filter_cons, ht, he, if_true,
          Bool.false_eq_true, if_false] at ih ⊢
        exact ih
    · have he : (t == x) = false := by
        by_contra hc
        rw [Bool.not_eq_false, beq_iff_eq] at hc
        exact ht (by rw [hc]; exact hx)
      rw [Bool.not_eq_true] at ht
      simp only [minifyCSS, countTok, List.filter_cons, ht, he, Bool.false_eq_true,
        if_false] at ih ⊢
      exact ih

/-- C8: stylesheets whose name already ends in `.min.css` are excluded from
the minify task's input; on any stylesheet text, the modeled minifier
preserves the selector and declaration content exactly, never increases the
byte size, preserves the brace and parenthesis counts (so balance is
preserved), and the renamed output of `variables.css` is the sibling
`variables.min.css`. -/
theorem minifyCSS_refinement (ts : List CssTok) (name : String)
    (h : strEndsWith name ".min.css" = true) :
    cssSrcSelects name = false ∧
      cssSemantics (minifyCSS ts) = cssSemantics ts ∧
      cssTextSize (minifyCSS ts) ≤ cssTextSize ts ∧
      countTok (minifyCSS ts) CssTok.lbrace = countTok ts CssTok.lbrace ∧
      countTok (minifyCSS ts) CssTok.rbrace = countTok ts CssTok.rbrace ∧
      countTok (minifyCSS ts) CssTok.lparen = countTok ts CssTok.lparen ∧
      countTok (minifyCSS ts) CssTok.rparen = countTok ts CssTok.rparen ∧
      renameWithMinSuffix "variables.css" = "variables.min.css" := by
  refine ⟨?_, ?_, cssTextSize_minify_le ts, countTok_minify ts _ rfl, countTok_minify ts _ rfl,
    countTok_minify ts _ rfl, countTok_minify ts _ rfl, by decide⟩
  · simp [cssSrcSelects, h]
  · simp [cssSemantics, minifyCSS, List.filter_filter]

/-- Witness for C8: the exclusion and the transform evaluated at a concrete
minified name and a concrete stylesheet text. -/
theorem minifyCSS_refinement_witness :
    strEndsWith "portfolio-item.min.css" ".min.css" = true ∧
      cssSrcSelects "portfolio-item.min.css" = false ∧
      cssSemantics (minifyCSS cssWitnessSheet) = cssSemantics cssWitnessSheet ∧
      cssTextSize (minifyCSS cssWitnessSheet) ≤ cssTextSize cssWitnessSheet :=
  ⟨by decide,
    (minifyCSS_refinement cssWitnessSheet "portfolio-item.min.css" (by decide)).1,
    (minifyCSS_refinement cssWitnessSheet "portfolio-item.min.css" (by decide)).2.1,
    (minifyCSS_refinement cssWitnessSheet "portfolio-item.min.css" (by decide)).2.2.1⟩
